import Mathlib

/-
Shallow embedding of pypal/service/adaptive_payment.py.

Python values relevant to this module are modelled by the inductive `PyVal`
(None, bools, strings, dicts, lists, and ReceiverList instances).  Python
dicts are association lists over string keys with in-place update modelled
functionally (`dset`, `dictUpdate`).  Python exceptions are modelled with
`Except PyErr`.  The collaborators that are not part of src/
(pypal.util.check_required, pypal.util.set_nonempty_param, the currency
validator pypal.currency.is_valid_code and the pypal.Client object) are
modelled from the spec, as marked on each definition.
-/

/-- Python values as manipulated by the adaptive_payment module.  A
`pyrlist` is an instance of the module's `ReceiverList` subclass of `list`;
its elements are the sanitized receiver dicts. -/
inductive PyVal where
  | pynone : PyVal
  | pybool : Bool → PyVal
  | pystr : String → PyVal
  | pydict : List (String × PyVal) → PyVal
  | pylist : List PyVal → PyVal
  | pyrlist : List (List (String × PyVal)) → PyVal

/-- A Python dict with string keys, as an insertion-ordered association list. -/
abbrev Dict := List (String × PyVal)

/-- Python truthiness (`bool(v)`): None, empty strings and empty
collections are falsy, everything else here is truthy. -/
def PyVal.isTruthy : PyVal → Bool
  | .pynone => false
  | .pybool b => b
  | .pystr s => !s.isEmpty
  | .pydict d => !d.isEmpty
  | .pylist l => !l.isEmpty
  | .pyrlist l => !l.isEmpty

/-- Dict lookup, `d[k]` as an `Option` (Python dicts have unique keys; the
first binding wins). -/
def dictGet : Dict → String → Option PyVal
  | [], _ => none
  | (k', v) :: rest, k => if k' = k then some v else dictGet rest k

/-- Python `d.get(k, dflt)`. -/
def dictGetD (d : Dict) (k : String) (dflt : PyVal) : PyVal :=
  (dictGet d k).getD dflt

/-- In-place assignment `d[k] = v`: replaces the binding if the key is
present (keeping its position), else appends the new binding. -/
def dset : Dict → String → PyVal → Dict
  | [], k, v => [(k, v)]
  | (k', v') :: rest, k, v =>
      if k' = k then (k', v) :: rest else (k', v') :: dset rest k v

/-- Python `d.update(other)`: assigns every binding of `other` into `d`. -/
def dictUpdate (d : Dict) (other : Dict) : Dict :=
  other.foldl (fun acc kv => dset acc kv.1 kv.2) d

/-- Exceptions raised by the module.  The three enum/validity failures are
`ValueError`s in Python, distinguished by their message; they are kept as
separate constructors carrying the offending value so that the failed check
is identified. -/
inductive PyErr where
  | missingRequiredField : String → PyErr
  | invalidCurrencyCode : PyVal → PyErr
  | unsupportedActionType : PyVal → PyErr
  | unsupportedFeesPayer : PyVal → PyErr
  | typeError : String → PyErr
  | attributeError : String → PyErr

/-- Modelled from the spec: `pypal.util.check_required` (not under src/).
For each name in `required`, in the caller-specified order, fails with a
MissingRequiredField error carrying the field name if the value bound to
that name is empty or absent (fail-fast on the first missing one). -/
def check_required (values : Dict) (required : List String) : Except PyErr Unit :=
  match required with
  | [] => .ok ()
  | n :: rest =>
      if (dictGetD values n .pynone).isTruthy then check_required values rest
      else .error (.missingRequiredField n)

/-- Modelled from the spec: `pypal.util.set_nonempty_param` (not under
src/).  Inserts `key : value` into the target mapping only if the value is
non-empty (non-null, non-empty-string, non-empty-collection); otherwise it
is a no-op. -/
def set_nonempty_param (d : Dict) (k : String) (v : PyVal) : Dict :=
  if v.isTruthy then dset d k v else d

/-- Modelled from the spec: the client-wide configuration, exposing the
sandbox flag read by the dispatcher. -/
structure ClientConfig where
  in_sandbox : Bool

/-- Modelled from the spec: the response object returned by the injected
API client, exposing a success flag and a key-value result set. -/
structure Response where
  success : Bool
  fields : Dict

/-- Python `response.get(key, dflt)`. -/
def Response.get (r : Response) (k : String) (dflt : PyVal) : PyVal :=
  dictGetD r.fields k dflt

/-- One outbound call as forwarded to the injected API client:
`client.call(service, method, endpoint=endpoint, **params)`. -/
structure Dispatch where
  service : String
  method : String
  endpoint : String
  params : Dict

/-- Modelled from the spec: the injected `pypal.Client` capability (not
under src/): `callFn` is the `client.call` method performing the network
call, `get_paypal_url` resolves a path against the client's base PayPal
URL. -/
structure Client where
  config : ClientConfig
  callFn : String → String → String → Dict → Response
  get_paypal_url : String → String

def PRODUCTION_ENDPOINT : String := "https://svcs.paypal.com"

def SANDBOX_ENDPOINT : String := "https://svcs.sandbox.paypal.com"

def ACTION_PAY : String := "PAY"

def ACTION_CREATE : String := "CREATE"

def ACTION_PAY_PRIMARY : String := "PAY_PRIMARY"

def SUPPORTED_PAY_ACTIONS : List String :=
  [ACTION_PAY, ACTION_CREATE, ACTION_PAY_PRIMARY]

def FEE_PAYER_SENDER : String := "SENDER"

def FEE_PAYER_PRIMARY_RECEIVER : String := "PRIMARYRECEIVER"

def FEE_PAYER_EACH_RECEIVER : String := "EACHRECEIVER"

def FEE_PAYER_SECONDARY_RECEIVERS : String := "SECONDARYONLY"

def SUPPORTED_FEE_PAYERS : List String :=
  [FEE_PAYER_SENDER, FEE_PAYER_PRIMARY_RECEIVER,
   FEE_PAYER_EACH_RECEIVER, FEE_PAYER_SECONDARY_RECEIVERS]

/-- Python `v in ss` for a frozenset `ss` of strings: true exactly when `v`
is a string equal to one of them. -/
def pyInStrings (v : PyVal) (ss : List String) : Bool :=
  match v with
  | .pystr s => ss.contains s
  | _ => false

/-- ReceiverList.append (src lines 51-60): reads `email` and `amount` with
`obj.get`; if both are falsy the record is dropped (the method just returns
False, raising nothing); otherwise the canonical three-field sanitized dict
is appended to the underlying list. -/
def ReceiverList.append (self : List Dict) (obj : Dict) : List Dict :=
  let email := dictGetD obj "email" .pynone
  let amount := dictGetD obj "amount" .pynone
  if !email.isTruthy && !amount.isTruthy then self
  else
    self ++ [[("email", dictGetD obj "email" .pynone),
              ("amount", dictGetD obj "amount" .pynone),
              ("primary", dictGetD obj "primary" (.pystr "false"))]]

/-- ReceiverList.extend (src lines 62-64) specialized to record (dict)
elements: applies `append` to each element in sequence. -/
def ReceiverList.extend (self : List Dict) (iterable : List Dict) : List Dict :=
  iterable.foldl ReceiverList.append self

/-- ReceiverList.append on an arbitrary Python object: `obj.get` raises
AttributeError unless the object is a dict. -/
def ReceiverList.appendObj (self : List Dict) (obj : PyVal) : Except PyErr (List Dict) :=
  match obj with
  | .pydict d => .ok (ReceiverList.append self d)
  | _ => .error (.attributeError "object has no attribute get")

/-- ReceiverList.extend on a list of arbitrary Python objects. -/
def ReceiverList.extendE (self : List Dict) (iterable : List PyVal) : Except PyErr (List Dict) :=
  match iterable with
  | [] => .ok self
  | obj :: rest =>
      match ReceiverList.appendObj self obj with
      | .error e => .error e
      | .ok self' => ReceiverList.extendE self' rest

/-- ReceiverList.__init__ (src lines 47-49): starts from the empty list and
extends with the iterable when it is non-empty. -/
def ReceiverList.initE (iterable : List PyVal) : Except PyErr (List Dict) :=
  if iterable.isEmpty then .ok [] else ReceiverList.extendE [] iterable

/-- The dispatcher (src lines 66-78): picks the endpoint from the pair
(production, sandbox) indexed by the sandbox flag and forwards service
name, method, endpoint and params to the injected client, returning both
the forwarded call record and the client's response. -/
def call (client : Client) (method : String) (params : Dict) : Dispatch × Response :=
  let endpoint := if client.config.in_sandbox then SANDBOX_ENDPOINT else PRODUCTION_ENDPOINT
  (⟨"AdaptivePayments", method, endpoint, params⟩,
   client.callFn "AdaptivePayments" method endpoint params)

/-- The local bindings of `pay` that `check_required(locals(), ...)` can
consult.  (`client` and `extra` are also in `locals()` but are not in the
required-names tuple and are never looked up.) -/
def payLocals (aty ccode curl rurl ipn recv fp : PyVal) : Dict :=
  [("action_type", aty), ("currency_code", ccode), ("cancel_url", curl),
   ("return_url", rurl), ("ipn_callback_url", ipn), ("receivers", recv),
   ("fees_payer", fp)]

/-- The required-names tuple passed to check_required (src lines 152-153). -/
def PAY_REQUIRED : List String :=
  ["cancel_url", "return_url", "currency_code", "action_type",
   "receivers", "ipn_callback_url"]

/-- Receiver normalization in `pay` (src lines 168-171): an existing
ReceiverList is used as-is; a list is fed to the ReceiverList constructor;
any other value is first wrapped in a singleton list. -/
def normalizeReceivers (receivers : PyVal) : Except PyErr (List Dict) :=
  match receivers with
  | .pyrlist es => .ok es
  | .pylist items => ReceiverList.initE items
  | v => ReceiverList.initE [v]

/-- Payload assembly in `pay` (src lines 173-180): `extra.update({...})`
with the five derived fields, then the two conditional fields through
set_nonempty_param. -/
def payPayload (aty ccode curl rurl ipn fp : PyVal) (receivers' : List Dict)
    (extra : Dict) : Dict :=
  set_nonempty_param
    (set_nonempty_param
      (dictUpdate extra
        [("actionType", aty),
         ("receiverList", PyVal.pydict [("receiver", PyVal.pyrlist receivers')]),
         ("currencyCode", ccode),
         ("cancelUrl", curl),
         ("returnUrl", rurl)])
      "ipnNotificationUrl" ipn)
    "feesPayer" fp

/-- The Pay builder (src lines 123-181).  `is_valid_code` is the injected
currency validator (pypal.currency, modelled from the spec as a predicate).
On success it returns the final contents of `extra` (the mutated mapping),
the forwarded call record and the client's response; a validation failure
is an error value, in which case no call record exists (the dispatcher is
only reached in the success branch). -/
def pay (is_valid_code : PyVal → Bool) (client : Client)
    (action_type currency_code cancel_url return_url ipn_callback_url
     receivers fees_payer : PyVal) (extra : Dict) :
    Except PyErr (Dict × Dispatch × Response) :=
  match check_required
      (payLocals action_type currency_code cancel_url return_url
        ipn_callback_url receivers fees_payer) PAY_REQUIRED with
  | .error e => .error e
  | .ok _ =>
    if !is_valid_code currency_code then
      .error (.invalidCurrencyCode currency_code)
    else if !pyInStrings action_type SUPPORTED_PAY_ACTIONS then
      .error (.unsupportedActionType action_type)
    else if fees_payer.isTruthy && !pyInStrings fees_payer SUPPORTED_FEE_PAYERS then
      .error (.unsupportedFeesPayer fees_payer)
    else
      match normalizeReceivers receivers with
      | .error e => .error e
      | .ok receivers' =>
        let extra' := payPayload action_type currency_code cancel_url
          return_url ipn_callback_url fees_payer receivers' extra
        .ok (extra', call client "Pay" extra')

/-- Python evaluates the default argument `extra={}` of `pay` once, at
function definition time; every call that omits `extra` receives that same
dict object, and `pay` mutates it in place via `extra.update(...)` and
`set_nonempty_param`.  This wrapper makes that hidden module state
explicit: it takes the current contents of the shared default dict and
returns its contents after the call (unchanged when the call raises, since
every validation error is raised before the first mutation). -/
def payWithDefault (is_valid_code : PyVal → Bool) (client : Client)
    (action_type currency_code cancel_url return_url ipn_callback_url
     receivers fees_payer : PyVal) (defaultExtra : Dict) :
    Except PyErr (Dict × Dispatch × Response) × Dict :=
  match pay is_valid_code client action_type currency_code cancel_url
      return_url ipn_callback_url receivers fees_payer defaultExtra with
  | .ok (fe, d, r) => (.ok (fe, d, r), fe)
  | .error e => (.error e, defaultExtra)

/-- URL derivation (src lines 105-117): picks the standard or embedded path
template, substitutes the pay key for the trailing %s and resolves the
result against the client's base PayPal URL. -/
def generate_pay_url (client : Client) (pay_key : String)
    (embedded : Bool) : String :=
  let paths := ("/cgi-bin/webscr?cmd=_ap-payment&paykey=",
                "/webapps/adaptivepayment/flow/pay?paykey=")
  client.get_paypal_url ((if embedded then paths.2 else paths.1) ++ pay_key)

/-- Python str(v), as used by the %s template (only the string case is ever
relevant: a falsy pay key returns early and the provider issues string pay
keys; the collection renderings are placeholders). -/
def PyVal.fmtS : PyVal → String
  | .pynone => "None"
  | .pybool b => if b then "True" else "False"
  | .pystr s => s
  | .pydict _ => "<dict>"
  | .pylist _ => "<list>"
  | .pyrlist _ => "<ReceiverList>"

/-- The parameter names of `pay` (the keyword names a call may bind). -/
def PAY_PARAM_NAMES : List String :=
  ["client", "action_type", "currency_code", "cancel_url", "return_url",
   "ipn_callback_url", "receivers", "fees_payer", "extra"]

/-- The local bindings of get_payment_url at the point of `pay(**locals())`
(its ten parameters, all bound on entry). -/
def GET_PAYMENT_URL_LOCALS : List String :=
  ["client", "action_type", "currency_code", "cancel_url", "return_url",
   "ipn_callback_url", "receivers", "fees_payer", "extra", "embedded"]

/-- get_payment_url (src lines 80-103).  Its first statement is
`pay(**locals())`: Python binds every local name as a keyword argument of
`pay`, and raises TypeError at the call site if some name is not a
parameter of `pay`.  The rest of the body mirrors the source: a failed
response or a falsy pay key yields the null sentinel, otherwise the
generated URL. -/
def get_payment_url (is_valid_code : PyVal → Bool) (client : Client)
    (action_type currency_code cancel_url return_url ipn_callback_url
     receivers fees_payer : PyVal) (extra : Dict) (embedded : Bool) :
    Except PyErr (Option String) :=
  match GET_PAYMENT_URL_LOCALS.find? (fun n => !PAY_PARAM_NAMES.contains n) with
  | some n => .error (.typeError ("pay() got an unexpected keyword argument " ++ n))
  | none =>
    match pay is_valid_code client action_type currency_code cancel_url
        return_url ipn_callback_url receivers fees_payer extra with
    | .error e => .error e
    | .ok (_, _, response) =>
      if !response.success then .ok none
      else
        let pay_key := response.get "payKey" .pynone
        if !pay_key.isTruthy then .ok none
        else .ok (some (generate_pay_url client pay_key.fmtS embedded))

/-- The condition under which a receiver record survives
ReceiverList.append: at least one of email/amount is non-empty. -/
def survivesB (r : Dict) : Bool :=
  (dictGetD r "email" .pynone).isTruthy || (dictGetD r "amount" .pynone).isTruthy

/-- The canonical three-field record that ReceiverList.append stores for a
surviving input record. -/
def sanitize (r : Dict) : Dict :=
  [("email", dictGetD r "email" .pynone),
   ("amount", dictGetD r "amount" .pynone),
   ("primary", dictGetD r "primary" (.pystr "false"))]

/-- A well-formed stored receiver entry: at least one of its email/amount
fields is populated. -/
def goodEntry (e : Dict) : Bool :=
  (dictGetD e "email" .pynone).isTruthy || (dictGetD e "amount" .pynone).isTruthy

/-- The first name in the given order whose value is empty or absent, which
is exactly the field check_required reports. -/
def firstMissing (values : Dict) : List String → Option String
  | [] => none
  | n :: rest =>
      if (dictGetD values n .pynone).isTruthy then firstMissing values rest
      else some n

/-- The payload keys written by the `pay` builder itself (derived fields
plus the two conditionally-set fields). -/
def PAY_BUILDER_KEYS : List String :=
  ["actionType", "receiverList", "currencyCode", "cancelUrl", "returnUrl",
   "ipnNotificationUrl", "feesPayer"]

/-- A currency validator accepting every code (concrete injected
collaborator for evaluating the embedding on closed inputs). -/
def tValidator : PyVal → Bool := fun _ => true

/-- A currency validator rejecting every code. -/
def fValidator : PyVal → Bool := fun _ => false

/-- A concrete client in production mode whose API capability always
answers success with a pay key. -/
def tClient : Client :=
  ⟨⟨false⟩, fun _ _ _ _ => ⟨true, [("payKey", PyVal.pystr "K")]⟩,
   fun path => "https://www.paypal.com" ++ path⟩

/-- A concrete receiver record with both fields populated. -/
def wRec : Dict := [("email", PyVal.pystr "e"), ("amount", PyVal.pystr "1")]

/-- The canonical entry stored for `wRec`. -/
def wEntry : Dict :=
  [("email", PyVal.pystr "e"), ("amount", PyVal.pystr "1"),
   ("primary", PyVal.pystr "false")]

/-- A caller-supplied extra mapping with one custom field. -/
def wExtra : Dict := [("customField", PyVal.pystr "X")]

/-- The payload dispatched by the concrete successful `pay` call used in
the closed evaluations below. -/
def wFe : Dict :=
  [("customField", PyVal.pystr "X"), ("actionType", PyVal.pystr "PAY"),
   ("receiverList", PyVal.pydict [("receiver", PyVal.pyrlist [wEntry])]),
   ("currencyCode", PyVal.pystr "C"), ("cancelUrl", PyVal.pystr "u"),
   ("returnUrl", PyVal.pystr "v"), ("ipnNotificationUrl", PyVal.pystr "w")]

/-- The call record of that concrete `pay` call. -/
def wD : Dispatch := ⟨"AdaptivePayments", "Pay", "https://svcs.paypal.com", wFe⟩

/-- The response of `tClient` to that call. -/
def wResp : Response := ⟨true, [("payKey", PyVal.pystr "K")]⟩

/-- A receiver record with an email, an empty amount and an unrelated key. -/
def wR10 : Dict := [("email", PyVal.pystr "e"), ("note", PyVal.pystr "n")]

/-- The canonical entry stored for `wR10`: exactly the three keys, with the
missing amount stored as an explicit null. -/
def wE10 : Dict :=
  [("email", PyVal.pystr "e"), ("amount", PyVal.pynone),
   ("primary", PyVal.pystr "false")]

/-- Contents of the shared default `extra` dict after a first `pay` call
that omits `extra` and supplies a fees payer (the dict starts empty at
module import time). -/
def leakState1 : Dict :=
  (payWithDefault tValidator tClient (.pystr "PAY") (.pystr "C") (.pystr "u")
    (.pystr "v") (.pystr "w") (.pydict wRec) (.pystr "SENDER") []).2

/-- Outcome of a second `pay` call that omits both `extra` and the fees
payer, made after the first one. -/
def leakResult2 : Except PyErr (Dict × Dispatch × Response) :=
  (payWithDefault tValidator tClient (.pystr "PAY") (.pystr "C") (.pystr "u")
    (.pystr "v") (.pystr "w") (.pydict wRec) PyVal.pynone leakState1).1

/-- The dispatched payload of a `pay` outcome, when it succeeded. -/
def okPayload : Except PyErr (Dict × Dispatch × Response) → Option Dict
  | .ok (_, d, _) => some d.params
  | .error _ => none


theorem dictGet_dset_self (d : Dict) (k : String) (v : PyVal) :
    dictGet (dset d k v) k = some v := by
  induction d with
  | nil => simp [dset, dictGet]
  | cons hd tl ih =>
      obtain ⟨a, b⟩ := hd
      by_cases hak : a = k
      · subst hak
        simp [dset, dictGet]
      · simp [dset, dictGet, hak, ih]

theorem dictGet_dset_ne {d : Dict} {k k' : String} {v : PyVal} (h : k' ≠ k) :
    dictGet (dset d k v) k' = dictGet d k' := by
  induction d with
  | nil => simp [dset, dictGet, Ne.symm h]
  | cons hd tl ih =>
      obtain ⟨a, b⟩ := hd
      by_cases hak : a = k
      · subst hak
        simp [dset, dictGet, Ne.symm h]
      · simp [dset, dictGet, hak, ih]

theorem dictGet_snp_self (d : Dict) (k : String) (v : PyVal) :
    dictGet (set_nonempty_param d k v) k =
      if v.isTruthy then some v else dictGet d k := by
  unfold set_nonempty_param
  by_cases h : v.isTruthy <;> simp [h, dictGet_dset_self]

theorem dictGet_snp_ne {d : Dict} {k k' : String} {v : PyVal} (h : k' ≠ k) :
    dictGet (set_nonempty_param d k v) k' = dictGet d k' := by
  unfold set_nonempty_param
  by_cases hv : v.isTruthy <;> simp [hv, dictGet_dset_ne h]

theorem check_required_ok_iff (values : Dict) (ns : List String) :
    check_required values ns = .ok () ↔ firstMissing values ns = none := by
  induction ns with
  | nil => simp [check_required, firstMissing]
  | cons n rest ih =>
      by_cases h : (dictGetD values n .pynone).isTruthy <;>
        simp [check_required, firstMissing, h, ih]

theorem check_required_error_iff (values : Dict) (ns : List String) (f : String) :
    check_required values ns = .error (.missingRequiredField f) ↔
      firstMissing values ns = some f := by
  induction ns with
  | nil => simp [check_required, firstMissing]
  | cons n rest ih =>
      by_cases h : (dictGetD values n .pynone).isTruthy <;>
        simp [check_required, firstMissing, h, ih]

theorem firstMissing_none_truthy {values : Dict} {ns : List String}
    (h : firstMissing values ns = none) :
    ∀ n ∈ ns, (dictGetD values n .pynone).isTruthy = true := by
  induction ns with
  | nil => simp
  | cons m rest ih =>
      intro n hn
      by_cases hm : (dictGetD values m .pynone).isTruthy
      · rcases List.mem_cons.mp hn with rfl | hmem
        · exact hm
        · exact ih (by simpa [firstMissing, hm] using h) n hmem
      · simp [firstMissing, hm] at h

theorem goodEntry_sanitize (r : Dict) : goodEntry (sanitize r) = survivesB r := rfl

theorem append_eq_ite (l : List Dict) (r : Dict) :
    ReceiverList.append l r = if survivesB r then l ++ [sanitize r] else l := by
  unfold ReceiverList.append survivesB sanitize
  cases h1 : (dictGetD r "email" .pynone).isTruthy <;>
    cases h2 : (dictGetD r "amount" .pynone).isTruthy <;>
      simp [h1, h2]

theorem extend_eq_filter_map (rs : List Dict) (l : List Dict) :
    ReceiverList.extend l rs = l ++ (rs.filter survivesB).map sanitize := by
  induction rs generalizing l with
  | nil => simp [ReceiverList.extend]
  | cons r rest ih =>
      have hstep : ReceiverList.extend l (r :: rest) =
          ReceiverList.extend (ReceiverList.append l r) rest := rfl
      rw [hstep, ih, append_eq_ite]
      by_cases h : survivesB r <;> simp [h, List.filter_cons]

theorem goodEntry_extend {rs l : List Dict}
    (hl : ∀ e ∈ l, goodEntry e = true) :
    ∀ e ∈ ReceiverList.extend l rs, goodEntry e = true := by
  intro e he
  rw [extend_eq_filter_map] at he
  rcases List.mem_append.mp he with h | h
  · exact hl e h
  · rcases List.mem_map.mp h with ⟨r, hr, rfl⟩
    rw [goodEntry_sanitize]
    exact List.of_mem_filter hr

theorem extendE_good {items : List PyVal} {l out : List Dict}
    (h : ReceiverList.extendE l items = .ok out)
    (hl : ∀ e ∈ l, goodEntry e = true) :
    ∀ e ∈ out, goodEntry e = true := by
  induction items generalizing l with
  | nil =>
      simp only [ReceiverList.extendE, Except.ok.injEq] at h
      exact h ▸ hl
  | cons obj rest ih =>
      cases obj with
      | pydict d =>
          have hstep : ReceiverList.extendE l (PyVal.pydict d :: rest) =
              ReceiverList.extendE (ReceiverList.append l d) rest := rfl
          rw [hstep] at h
          refine ih h ?_
          intro e he
          rw [append_eq_ite] at he
          by_cases hs : survivesB d
          · simp [hs] at he
            rcases he with he | he
            · exact hl e he
            · rw [he, goodEntry_sanitize]
              exact hs
          · simp [hs] at he
            exact hl e he
      | pynone => simp [ReceiverList.extendE, ReceiverList.appendObj] at h
      | pybool b => simp [ReceiverList.extendE, ReceiverList.appendObj] at h
      | pystr s => simp [ReceiverList.extendE, ReceiverList.appendObj] at h
      | pylist xs => simp [ReceiverList.extendE, ReceiverList.appendObj] at h
      | pyrlist xs => simp [ReceiverList.extendE, ReceiverList.appendObj] at h

theorem extendE_pydict (rs : List Dict) (l : List Dict) :
    ReceiverList.extendE l (rs.map PyVal.pydict) =
      .ok (ReceiverList.extend l rs) := by
  induction rs generalizing l with
  | nil => simp [ReceiverList.extendE, ReceiverList.extend]
  | cons r rest ih =>
      have h1 : ReceiverList.extendE l (PyVal.pydict r :: rest.map PyVal.pydict) =
          ReceiverList.extendE (ReceiverList.append l r) (rest.map PyVal.pydict) := rfl
      have h2 : ReceiverList.extend l (r :: rest) =
          ReceiverList.extend (ReceiverList.append l r) rest := rfl
      rw [List.map_cons, h1, h2, ih]

theorem payPayload_get_actionType (aty ccode curl rurl ipn fp : PyVal)
    (rs : List Dict) (extra : Dict) :
    dictGet (payPayload aty ccode curl rurl ipn fp rs extra) "actionType" =
      some aty := by
  unfold payPayload dictUpdate
  simp only [List.foldl]
  rw [dictGet_snp_ne (by decide), dictGet_snp_ne (by decide),
      dictGet_dset_ne (by decide), dictGet_dset_ne (by decide),
      dictGet_dset_ne (by decide), dictGet_dset_ne (by decide),
      dictGet_dset_self]

theorem payPayload_get_receiverList (aty ccode curl rurl ipn fp : PyVal)
    (rs : List Dict) (extra : Dict) :
    dictGet (payPayload aty ccode curl rurl ipn fp rs extra) "receiverList" =
      some (PyVal.pydict [("receiver", PyVal.pyrlist rs)]) := by
  unfold payPayload dictUpdate
  simp only [List.foldl]
  rw [dictGet_snp_ne (by decide), dictGet_snp_ne (by decide),
      dictGet_dset_ne (by decide), dictGet_dset_ne (by decide),
      dictGet_dset_ne (by decide), dictGet_dset_self]

theorem payPayload_get_currencyCode (aty ccode curl rurl ipn fp : PyVal)
    (rs : List Dict) (extra : Dict) :
    dictGet (payPayload aty ccode curl rurl ipn fp rs extra) "currencyCode" =
      some ccode := by
  unfold payPayload dictUpdate
  simp only [List.foldl]
  rw [dictGet_snp_ne (by decide), dictGet_snp_ne (by decide),
      dictGet_dset_ne (by decide), dictGet_dset_ne (by decide),
      dictGet_dset_self]

theorem payPayload_get_cancelUrl (aty ccode curl rurl ipn fp : PyVal)
    (rs : List Dict) (extra : Dict) :
    dictGet (payPayload aty ccode curl rurl ipn fp rs extra) "cancelUrl" =
      some curl := by
  unfold payPayload dictUpdate
  simp only [List.foldl]
  rw [dictGet_snp_ne (by decide), dictGet_snp_ne (by decide),
      dictGet_dset_ne (by decide), dictGet_dset_self]

theorem payPayload_get_returnUrl (aty ccode curl rurl ipn fp : PyVal)
    (rs : List Dict) (extra : Dict) :
    dictGet (payPayload aty ccode curl rurl ipn fp rs extra) "returnUrl" =
      some rurl := by
  unfold payPayload dictUpdate
  simp only [List.foldl]
  rw [dictGet_snp_ne (by decide), dictGet_snp_ne (by decide),
      dictGet_dset_self]

theorem payPayload_get_ipn (aty ccode curl rurl ipn fp : PyVal)
    (rs : List Dict) (extra : Dict) :
    dictGet (payPayload aty ccode curl rurl ipn fp rs extra) "ipnNotificationUrl" =
      if ipn.isTruthy then some ipn else dictGet extra "ipnNotificationUrl" := by
  unfold payPayload dictUpdate
  simp only [List.foldl]
  rw [dictGet_snp_ne (by decide), dictGet_snp_self,
      dictGet_dset_ne (by decide), dictGet_dset_ne (by decide),
      dictGet_dset_ne (by decide), dictGet_dset_ne (by decide),
      dictGet_dset_ne (by decide)]

theorem payPayload_get_fees (aty ccode curl rurl ipn fp : PyVal)
    (rs : List Dict) (extra : Dict) :
    dictGet (payPayload aty ccode curl rurl ipn fp rs extra) "feesPayer" =
      if fp.isTruthy then some fp else dictGet extra "feesPayer" := by
  unfold payPayload dictUpdate
  simp only [List.foldl]
  rw [dictGet_snp_self, dictGet_snp_ne (by decide),
      dictGet_dset_ne (by decide), dictGet_dset_ne (by decide),
      dictGet_dset_ne (by decide), dictGet_dset_ne (by decide),
      dictGet_dset_ne (by decide)]

theorem payPayload_get_other (aty ccode curl rurl ipn fp : PyVal)
    (rs : List Dict) (extra : Dict) {k : String}
    (h1 : k ≠ "actionType") (h2 : k ≠ "receiverList")
    (h3 : k ≠ "currencyCode") (h4 : k ≠ "cancelUrl") (h5 : k ≠ "returnUrl")
    (h6 : k ≠ "ipnNotificationUrl") (h7 : k ≠ "feesPayer") :
    dictGet (payPayload aty ccode curl rurl ipn fp rs extra) k =
      dictGet extra k := by
  unfold payPayload dictUpdate
  simp only [List.foldl]
  rw [dictGet_snp_ne h7, dictGet_snp_ne h6, dictGet_dset_ne h5,
      dictGet_dset_ne h4, dictGet_dset_ne h3, dictGet_dset_ne h2,
      dictGet_dset_ne h1]

theorem pay_ok_inv {v : PyVal → Bool} {c : Client}
    {aty ccode curl rurl ipn recv fp : PyVal} {extra fe : Dict}
    {d : Dispatch} {r : Response}
    (h : pay v c aty ccode curl rurl ipn recv fp extra = .ok (fe, d, r)) :
    firstMissing (payLocals aty ccode curl rurl ipn recv fp) PAY_REQUIRED = none ∧
    ipn.isTruthy = true ∧
    ∃ receivers', normalizeReceivers recv = .ok receivers' ∧
      fe = payPayload aty ccode curl rurl ipn fp receivers' extra ∧
      d = ⟨"AdaptivePayments", "Pay",
            if c.config.in_sandbox then SANDBOX_ENDPOINT else PRODUCTION_ENDPOINT,
            fe⟩ ∧
      r = c.callFn "AdaptivePayments" "Pay"
            (if c.config.in_sandbox then SANDBOX_ENDPOINT else PRODUCTION_ENDPOINT)
            fe := by
  unfold pay at h
  cases hcr : check_required
      (payLocals aty ccode curl rurl ipn recv fp) PAY_REQUIRED with
  | error e => rw [hcr] at h; simp at h
  | ok u =>
      rw [hcr] at h
      simp only at h
      by_cases hv : v ccode
      · rw [if_neg (by simp [hv])] at h
        by_cases ha : pyInStrings aty SUPPORTED_PAY_ACTIONS
        · rw [if_neg (by simp [ha])] at h
          by_cases hf : fp.isTruthy && !pyInStrings fp SUPPORTED_FEE_PAYERS
          · rw [if_pos (by simp_all)] at h
            simp at h
          · rw [if_neg (by simp_all)] at h
            cases hnr : normalizeReceivers recv with
            | error e => rw [hnr] at h; simp at h
            | ok receivers' =>
                rw [hnr] at h
                simp only [Except.ok.injEq, Prod.mk.injEq] at h
                obtain ⟨hfe, hcall⟩ := h
                have hfm : firstMissing
                    (payLocals aty ccode curl rurl ipn recv fp) PAY_REQUIRED = none := by
                  rcases hu : firstMissing
                      (payLocals aty ccode curl rurl ipn recv fp) PAY_REQUIRED with _ | f
                  · rfl
                  · rw [← check_required_error_iff] at hu
                    rw [hcr] at hu
                    simp at hu
                subst hfe
                have hcall' :
                    ((⟨"AdaptivePayments", "Pay",
                        if c.config.in_sandbox then SANDBOX_ENDPOINT else PRODUCTION_ENDPOINT,
                        payPayload aty ccode curl rurl ipn fp receivers' extra⟩ : Dispatch),
                      c.callFn "AdaptivePayments" "Pay"
                        (if c.config.in_sandbox then SANDBOX_ENDPOINT else PRODUCTION_ENDPOINT)
                        (payPayload aty ccode curl rurl ipn fp receivers' extra)) = (d, r) :=
                  hcall
                injection hcall' with hd hr
                exact ⟨hfm,
                  firstMissing_none_truthy hfm "ipn_callback_url" (by simp [PAY_REQUIRED]),
                  receivers', rfl, rfl, hd.symm, hr.symm⟩
        · rw [if_pos (by simp [ha])] at h
          simp at h
      · rw [if_pos (by simp [hv])] at h
        simp at h

/-- Claim C7: generate_pay_url is a pure function of its inputs (it holds
for every client, consults only the client's base-URL resolver and never
the dispatch capability): with embedded=false it resolves the path
"/cgi-bin/webscr?cmd=_ap-payment&paykey=" followed by the pay key against
the client's base PayPal URL, and with embedded=true it resolves
"/webapps/adaptivepayment/flow/pay?paykey=" followed by the pay key. -/
theorem generate_pay_url_spec : ∀ (c : Client) (key : String),
    generate_pay_url c key false =
      c.get_paypal_url ("/cgi-bin/webscr?cmd=_ap-payment&paykey=" ++ key) ∧
    generate_pay_url c key true =
      c.get_paypal_url ("/webapps/adaptivepayment/flow/pay?paykey=" ++ key) :=
  fun _ _ => ⟨rfl, rfl⟩

/-- Claim C8: for every invocation of `call`, the endpoint forwarded to the
injected API client is exactly the sandbox URL when the client's sandbox
flag is true and exactly the production URL when it is false, with service
name, method and params forwarded unchanged. -/
theorem call_endpoint_selection : ∀ (c : Client) (m : String) (p : Dict),
    call c m p =
      (⟨"AdaptivePayments", m,
         if c.config.in_sandbox then "https://svcs.sandbox.paypal.com"
         else "https://svcs.paypal.com", p⟩,
       c.callFn "AdaptivePayments" m
         (if c.config.in_sandbox then "https://svcs.sandbox.paypal.com"
          else "https://svcs.paypal.com") p) :=
  fun _ _ _ => rfl

/-- Claim C1 (refuted by the code, supporting the code_bug verdict): for
every client and every argument vector, get_payment_url raises TypeError
instead of returning the null sentinel or a URL, because its
`pay(**locals())` forwards its own `embedded` local as a keyword argument
and `pay` has no such parameter.  The docstring of get_payment_url promises
the Pay call and URL generation, so the code contradicts its own
documentation. -/
theorem get_payment_url_typeerror : ∀ (v : PyVal → Bool) (c : Client)
    (aty ccode curl rurl ipn recv fp : PyVal) (extra : Dict) (emb : Bool),
    get_payment_url v c aty ccode curl rurl ipn recv fp extra emb =
      .error (.typeError "pay() got an unexpected keyword argument embedded") :=
  fun _ _ _ _ _ _ _ _ _ _ _ => rfl

/-- Claim C3 (refuted by the code, supporting the code_bug verdict): two
sequential `pay` calls that omit `extra` share the mutable default dict.
The first call supplies fees_payer SENDER; the second call omits the fees
payer (passes None) yet its dispatched payload still contains
feesPayer=SENDER from the first call.  The second conjunct shows the field
indeed originates from the first call: the same second call made against a
fresh empty default mapping has no feesPayer field at all. -/
theorem pay_default_extra_leak :
    (okPayload leakResult2).map (fun p => dictGet p "feesPayer") =
      some (some (PyVal.pystr "SENDER")) ∧
    (okPayload ((payWithDefault tValidator tClient (.pystr "PAY") (.pystr "C")
        (.pystr "u") (.pystr "v") (.pystr "w") (.pydict wRec) PyVal.pynone
        []).1)).map (fun p => dictGet p "feesPayer") = some none :=
  ⟨rfl, rfl⟩

/-- Claim C4, counterexample: a receiver record whose amount is empty (the
key is absent) is nonetheless present in the list after append — it is not
discarded — refuting "present only if both email and amount are
non-empty; otherwise the insertion is silently discarded". -/
theorem receiver_both_required_cex :
    ReceiverList.append [] [("email", PyVal.pystr "a")] =
      [[("email", PyVal.pystr "a"), ("amount", PyVal.pynone),
        ("primary", PyVal.pystr "false")]] ∧
    (dictGetD [("email", PyVal.pystr "a")] "amount" PyVal.pynone).isTruthy = false :=
  ⟨rfl, rfl⟩

/-- Claim C4 as amended: a receiver record inserted into a ReceiverList is
present exactly when at least one of its email/amount is non-empty; when
both are empty or absent the insertion is silently discarded (the total
function returns the unchanged list, raising nothing). -/
theorem receiverlist_presence_condition : ∀ (l : List Dict) (r : Dict),
    ReceiverList.append l r = if survivesB r then l ++ [sanitize r] else l :=
  append_eq_ite

/-- Claim C10: every surviving receiver record is stored as a canonical
entry with exactly the keys email, amount, primary in that order; email and
amount keep the input's values with an absent field stored as an explicit
null (not omitted); every other key of the input record is discarded. -/
theorem receiver_sanitized_shape : ∀ (l : List Dict) (r : Dict),
    survivesB r = true →
    ReceiverList.append l r = l ++ [sanitize r] ∧
    (sanitize r).map Prod.fst = ["email", "amount", "primary"] ∧
    dictGet (sanitize r) "email" = some (dictGetD r "email" PyVal.pynone) ∧
    dictGet (sanitize r) "amount" = some (dictGetD r "amount" PyVal.pynone) ∧
    (dictGet r "email" = none → dictGet (sanitize r) "email" = some PyVal.pynone) ∧
    (dictGet r "amount" = none → dictGet (sanitize r) "amount" = some PyVal.pynone) ∧
    (∀ k, k ≠ "email" → k ≠ "amount" → k ≠ "primary" →
      dictGet (sanitize r) k = none) := by
  intro l r hs
  refine ⟨by rw [append_eq_ite, if_pos hs], rfl, rfl, rfl, ?_, ?_, ?_⟩
  · intro h
    show some (dictGetD r "email" PyVal.pynone) = some PyVal.pynone
    unfold dictGetD
    rw [h]
    rfl
  · intro h
    show some (dictGetD r "amount" PyVal.pynone) = some PyVal.pynone
    unfold dictGetD
    rw [h]
    rfl
  · intro k h1 h2 h3
    simp [sanitize, dictGet, Ne.symm h1, Ne.symm h2, Ne.symm h3]

/-- Witness for C10 at a concrete input: the record has an email, no
amount, and an unrelated key; the stored entry keeps the email, stores the
amount as an explicit null and drops the unrelated key. -/
theorem receiver_sanitized_shape_witness :
    ReceiverList.append [] wR10 = [wE10] ∧
    dictGet wE10 "amount" = some PyVal.pynone ∧
    dictGet wE10 "note" = none := by
  obtain ⟨h1, _, _, _, _, h6, h7⟩ := receiver_sanitized_shape [] wR10 rfl
  exact ⟨h1, h6 rfl, h7 "note" (by decide) (by decide) (by decide)⟩

/-- Claim C5: appending a record with both email and amount empty or absent
leaves the list unchanged (in particular its length) and raises no error
(append is a total function); a record with at least one of the two
present appends exactly one canonical entry, whose primary field defaults
to the string "false" when the key is absent; extend applies append to
each element in sequence, so the entries that survive filtering appear in
their original relative order (the filter/map equation), and extend over
record dicts agrees with the object-level extend used by `pay`. -/
theorem receiverlist_append_extend_spec : ∀ (l : List Dict) (r : Dict),
    (survivesB r = false → ReceiverList.append l r = l) ∧
    (survivesB r = true → ReceiverList.append l r = l ++ [sanitize r]) ∧
    (dictGet r "primary" = none →
      dictGet (sanitize r) "primary" = some (PyVal.pystr "false")) ∧
    (∀ rs : List Dict,
      ReceiverList.extend l rs = l ++ (rs.filter survivesB).map sanitize) ∧
    (∀ rs : List Dict,
      ReceiverList.extendE l (rs.map PyVal.pydict) =
        .ok (ReceiverList.extend l rs)) := by
  intro l r
  refine ⟨?_, ?_, ?_, fun rs => extend_eq_filter_map rs l,
    fun rs => extendE_pydict rs l⟩
  · intro h
    rw [append_eq_ite, if_neg (by simp [h])]
  · intro h
    rw [append_eq_ite, if_pos h]
  · intro h
    show some (dictGetD r "primary" (PyVal.pystr "false")) =
      some (PyVal.pystr "false")
    unfold dictGetD
    rw [h]
    rfl

/-- Witness for C5 at concrete inputs: the empty record is dropped, a full
record appends its canonical entry, primary defaults to "false" for a
record without the key, and extend filters and maps in order. -/
theorem receiverlist_append_extend_spec_witness :
    ReceiverList.append [] ([] : Dict) = [] ∧
    ReceiverList.append [] wRec = [wEntry] ∧
    dictGet (sanitize wR10) "primary" = some (PyVal.pystr "false") ∧
    ReceiverList.extend [] [([] : Dict), wRec] =
      [] ++ (([([] : Dict), wRec].filter survivesB).map sanitize) := by
  refine ⟨(receiverlist_append_extend_spec [] ([] : Dict)).1 rfl,
          (receiverlist_append_extend_spec [] wRec).2.1 rfl,
          (receiverlist_append_extend_spec [] wR10).2.2.1 rfl,
          (receiverlist_append_extend_spec [] ([] : Dict)).2.2.2.1
            [([] : Dict), wRec]⟩

/-- Claim C2: `pay` validates in the order required-field presence (in the
tuple order cancel_url, return_url, currency_code, action_type, receivers,
ipn_callback_url, reporting the first missing name), then currency-code
validity, then action-type membership, then fees-payer membership (only
when fees_payer is non-empty); each failing check yields the error
identifying it.  Every conclusion is an error value, which carries no
dispatch record, and it holds for every client regardless of its call
capability — so no network call occurs. -/
theorem pay_validation_order :
    ∀ (v : PyVal → Bool) (c : Client) (aty ccode curl rurl ipn recv fp : PyVal)
      (extra : Dict),
    (∀ f, firstMissing (payLocals aty ccode curl rurl ipn recv fp) PAY_REQUIRED =
        some f →
      pay v c aty ccode curl rurl ipn recv fp extra =
        .error (.missingRequiredField f)) ∧
    (∀ n ∈ PAY_REQUIRED,
      (dictGetD (payLocals aty ccode curl rurl ipn recv fp) n .pynone).isTruthy =
        false →
      ∃ f, pay v c aty ccode curl rurl ipn recv fp extra =
        .error (.missingRequiredField f)) ∧
    (firstMissing (payLocals aty ccode curl rurl ipn recv fp) PAY_REQUIRED = none →
      v ccode = false →
      pay v c aty ccode curl rurl ipn recv fp extra =
        .error (.invalidCurrencyCode ccode)) ∧
    (firstMissing (payLocals aty ccode curl rurl ipn recv fp) PAY_REQUIRED = none →
      v ccode = true → pyInStrings aty SUPPORTED_PAY_ACTIONS = false →
      pay v c aty ccode curl rurl ipn recv fp extra =
        .error (.unsupportedActionType aty)) ∧
    (firstMissing (payLocals aty ccode curl rurl ipn recv fp) PAY_REQUIRED = none →
      v ccode = true → pyInStrings aty SUPPORTED_PAY_ACTIONS = true →
      fp.isTruthy = true → pyInStrings fp SUPPORTED_FEE_PAYERS = false →
      pay v c aty ccode curl rurl ipn recv fp extra =
        .error (.unsupportedFeesPayer fp)) := by
  intro v c aty ccode curl rurl ipn recv fp extra
  have h1 : ∀ f, firstMissing (payLocals aty ccode curl rurl ipn recv fp)
      PAY_REQUIRED = some f →
      pay v c aty ccode curl rurl ipn recv fp extra =
        .error (.missingRequiredField f) := by
    intro f hf
    unfold pay
    rw [(check_required_error_iff _ PAY_REQUIRED f).mpr hf]
  refine ⟨h1, ?_, ?_, ?_, ?_⟩
  · intro n hn hfalse
    rcases hm : firstMissing (payLocals aty ccode curl rurl ipn recv fp)
        PAY_REQUIRED with _ | f
    · rw [firstMissing_none_truthy hm n hn] at hfalse
      cases hfalse
    · exact ⟨f, h1 f hm⟩
  · intro hm hv
    unfold pay
    rw [(check_required_ok_iff _ _).mpr hm]
    simp [hv]
  · intro hm hv ha
    unfold pay
    rw [(check_required_ok_iff _ _).mpr hm]
    simp [hv, ha]
  · intro hm hv ha hfp hfpm
    unfold pay
    rw [(check_required_ok_iff _ _).mpr hm]
    simp [hv, ha, hfp, hfpm]

/-- Witness for C2 at concrete inputs, one per validation stage: all-empty
arguments report the first required name (cancel_url); empty receivers
report a missing required field; a rejecting validator reports the
currency; an unknown action and an unknown fees payer report their own
errors. -/
theorem pay_validation_order_witness :
    pay tValidator tClient PyVal.pynone PyVal.pynone PyVal.pynone PyVal.pynone
      PyVal.pynone PyVal.pynone PyVal.pynone [] =
      .error (.missingRequiredField "cancel_url") ∧
    (∃ f, pay tValidator tClient (.pystr "PAY") (.pystr "C") (.pystr "u")
      (.pystr "v") (.pystr "w") PyVal.pynone PyVal.pynone [] =
      .error (.missingRequiredField f)) ∧
    pay fValidator tClient (.pystr "PAY") (.pystr "C") (.pystr "u") (.pystr "v")
      (.pystr "w") (.pydict wRec) PyVal.pynone [] =
      .error (.invalidCurrencyCode (.pystr "C")) ∧
    pay tValidator tClient (.pystr "NOPE") (.pystr "C") (.pystr "u") (.pystr "v")
      (.pystr "w") (.pydict wRec) PyVal.pynone [] =
      .error (.unsupportedActionType (.pystr "NOPE")) ∧
    pay tValidator tClient (.pystr "PAY") (.pystr "C") (.pystr "u") (.pystr "v")
      (.pystr "w") (.pydict wRec) (.pystr "NOPE") [] =
      .error (.unsupportedFeesPayer (.pystr "NOPE")) := by
  refine ⟨(pay_validation_order tValidator tClient _ _ _ _ _ _ _ []).1
            "cancel_url" rfl,
          (pay_validation_order tValidator tClient _ _ _ _ _ _ _ []).2.1
            "receivers" (by simp [PAY_REQUIRED]) rfl,
          (pay_validation_order fValidator tClient _ _ _ _ _ _ _ []).2.2.1
            rfl rfl,
          (pay_validation_order tValidator tClient _ _ _ _ _ _ _ []).2.2.2.1
            rfl rfl rfl,
          (pay_validation_order tValidator tClient _ _ _ _ _ _ _ []).2.2.2.2
            rfl rfl rfl rfl rfl⟩

/-- Claim C9: for every successful `pay` call, the dispatched payload is
exactly the final extra mapping; it contains the caller-supplied extra
fields as the base set (any key outside the builder's keys keeps its value
from `extra`), with the builder's derived fields actionType, receiverList,
currencyCode, cancelUrl, returnUrl written on top (overwriting same-named
extra fields); ipnNotificationUrl is attached (it is non-empty on every
successful call, being required) and feesPayer is attached only when
non-empty, a same-named extra field surviving otherwise. -/
theorem pay_payload_composition :
    ∀ (v : PyVal → Bool) (c : Client) (aty ccode curl rurl ipn recv fp : PyVal)
      (extra fe : Dict) (d : Dispatch) (r : Response),
    pay v c aty ccode curl rurl ipn recv fp extra = .ok (fe, d, r) →
    d.params = fe ∧
    dictGet fe "actionType" = some aty ∧
    (∃ R, normalizeReceivers recv = .ok R ∧
      dictGet fe "receiverList" = some (.pydict [("receiver", .pyrlist R)])) ∧
    dictGet fe "currencyCode" = some ccode ∧
    dictGet fe "cancelUrl" = some curl ∧
    dictGet fe "returnUrl" = some rurl ∧
    dictGet fe "ipnNotificationUrl" = some ipn ∧
    (fp.isTruthy = true → dictGet fe "feesPayer" = some fp) ∧
    (fp.isTruthy = false → dictGet fe "feesPayer" = dictGet extra "feesPayer") ∧
    (∀ k, k ∉ PAY_BUILDER_KEYS → dictGet fe k = dictGet extra k) := by
  intro v c aty ccode curl rurl ipn recv fp extra fe d r h
  obtain ⟨hfm, hipn, R, hnr, hfe, hd, hr⟩ := pay_ok_inv h
  subst hfe
  refine ⟨by rw [hd],
          payPayload_get_actionType _ _ _ _ _ _ _ _,
          ⟨R, hnr, payPayload_get_receiverList _ _ _ _ _ _ _ _⟩,
          payPayload_get_currencyCode _ _ _ _ _ _ _ _,
          payPayload_get_cancelUrl _ _ _ _ _ _ _ _,
          payPayload_get_returnUrl _ _ _ _ _ _ _ _,
          ?_, ?_, ?_, ?_⟩
  · rw [payPayload_get_ipn, if_pos hipn]
  · intro hfp
    rw [payPayload_get_fees, if_pos hfp]
  · intro hfp
    rw [payPayload_get_fees, if_neg (by simp [hfp])]
  · intro k hk
    simp only [PAY_BUILDER_KEYS, List.mem_cons, List.mem_singleton, not_or] at hk
    obtain ⟨g1, g2, g3, g4, g5, g6, g7, -⟩ := hk
    exact payPayload_get_other _ _ _ _ _ _ _ _ g1 g2 g3 g4 g5 g6 g7

/-- Witness for C9 at a concrete successful call with a caller-supplied
extra field: the payload keeps the custom field, carries the derived
action type, and the dispatched params are the final mapping. -/
theorem pay_payload_composition_witness :
    wD.params = wFe ∧
    dictGet wFe "actionType" = some (PyVal.pystr "PAY") ∧
    dictGet wFe "customField" = some (PyVal.pystr "X") := by
  have h := pay_payload_composition tValidator tClient (.pystr "PAY")
    (.pystr "C") (.pystr "u") (.pystr "v") (.pystr "w") (.pydict wRec)
    PyVal.pynone wExtra wFe wD wResp rfl
  refine ⟨h.1, h.2.1, ?_⟩
  have h10 := h.2.2.2.2.2.2.2.2.2 "customField" (by decide)
  rw [h10]
  rfl

/-- Claim C6: every entry contained in a ReceiverList built by any sequence
of the type's construction and insertion operations (every such sequence
amounts to extending the empty list with some record sequence) has at least
one of email/amount populated; and the receiverList.receiver field of a
payload dispatched by `pay` contains only such entries — for receivers
given as a record, a list of records, or an already-built ReceiverList
(the latter assumed built through the type's own operations). -/
theorem receiverlist_invariant_and_payload :
    (∀ rs : List Dict, ∀ e ∈ ReceiverList.extend [] rs, goodEntry e = true) ∧
    (∀ (v : PyVal → Bool) (c : Client) (aty ccode curl rurl ipn recv fp : PyVal)
       (extra fe : Dict) (d : Dispatch) (r : Response),
      (∀ es, recv = PyVal.pyrlist es →
        ∃ rs : List Dict, es = ReceiverList.extend [] rs) →
      pay v c aty ccode curl rurl ipn recv fp extra = .ok (fe, d, r) →
      ∀ es, dictGet d.params "receiverList" =
          some (.pydict [("receiver", .pyrlist es)]) →
      ∀ e ∈ es, goodEntry e = true) := by
  constructor
  · intro rs e he
    exact goodEntry_extend (by simp) e he
  · intro v c aty ccode curl rurl ipn recv fp extra fe d r hrl h es hes e he
    obtain ⟨hfm, hipn, R, hnr, hfe, hd, hr⟩ := pay_ok_inv h
    subst hfe
    rw [hd] at hes
    have hes' : dictGet (payPayload aty ccode curl rurl ipn fp R extra)
        "receiverList" = some (.pydict [("receiver", .pyrlist es)]) := hes
    rw [payPayload_get_receiverList] at hes'
    have hR : R = es := by
      simp only [Option.some.injEq, PyVal.pydict.injEq, List.cons.injEq,
        Prod.mk.injEq, PyVal.pyrlist.injEq, and_true, true_and] at hes'
      exact hes'
    subst hR
    cases recv with
    | pyrlist es0 =>
        obtain ⟨rs, hrs⟩ := hrl es0 rfl
        have hR0 : es0 = R := by
          simpa [normalizeReceivers] using hnr
        rw [← hR0, hrs] at he
        exact goodEntry_extend (by simp) e he
    | pylist items =>
        by_cases hi : items.isEmpty
        · have hnil : R = [] := by
            simpa [normalizeReceivers, ReceiverList.initE, hi] using hnr
          rw [hnil] at he
          cases he
        · have hext : ReceiverList.extendE [] items = .ok R := by
            simpa [normalizeReceivers, ReceiverList.initE, hi] using hnr
          exact extendE_good hext (by simp) e he
    | pynone =>
        simp [normalizeReceivers, ReceiverList.initE, ReceiverList.extendE,
          ReceiverList.appendObj] at hnr
    | pybool b =>
        simp [normalizeReceivers, ReceiverList.initE, ReceiverList.extendE,
          ReceiverList.appendObj] at hnr
    | pystr s =>
        simp [normalizeReceivers, ReceiverList.initE, ReceiverList.extendE,
          ReceiverList.appendObj] at hnr
    | pydict d0 =>
        have hext : ReceiverList.extendE [] [PyVal.pydict d0] = .ok R := by
          simpa [normalizeReceivers, ReceiverList.initE] using hnr
        exact extendE_good hext (by simp) e he

/-- Witness for C6: the invariant evaluated on the list built from a
one-field record, and on the receiverList field of the payload dispatched
by a concrete successful `pay` call. -/
theorem receiverlist_invariant_witness :
    goodEntry wE10 = true ∧ goodEntry wEntry = true := by
  constructor
  · exact (receiverlist_invariant_and_payload).1 [wR10] wE10
      (List.mem_singleton.mpr rfl)
  · exact (receiverlist_invariant_and_payload).2 tValidator tClient
      (.pystr "PAY") (.pystr "C") (.pystr "u") (.pystr "v") (.pystr "w")
      (.pydict wRec) PyVal.pynone wExtra wFe wD wResp
      (fun es h => nomatch h) rfl [wEntry] rfl wEntry
      (List.mem_singleton.mpr rfl)
